import Mathlib

/-!
# Verification of the xlunch-style native GUI core (`src/pkg/gui/xlunch_native.c`)

Shallow embedding of the pure state and algorithms of the launcher GUI.
Conventions:
* C `int` fields and arguments are modelled as `Int`; C integer division and
  modulus (truncation toward zero) are `Int.tdiv` / `Int.tmod`.
* C flag fields that are only ever tested for truthiness and assigned `0`/`1`
  (`noscroll`, the two hover flags) are modelled as `Bool`.
* Native handles (`Display*`, `Window`, `GC`, fonts, colors, Imlib images) are
  not part of the state.  The only fact about the off-screen render buffer the
  algorithms consult is whether its allocation succeeded (`xl->render_buffer`
  non-null), modelled as a `Bool`; likewise icon loading success is a `Bool`
  parameter of the icon-drawing model.
* Pixels (`DATA32`) are 32-bit ARGB words modelled as `Nat`.
-/

namespace XLunch

/-- The integer/flag portion of the `XLunchNative` struct
(`xlunch_native.h`, lines 17-60).  Omitted fields are the native handles
(`display`, `window`, `root`, `screen`, `gc`, `xft_draw`, `font`, the three
`XftColor`s, `colormap`, `visual`, `vinfo`, `attr`, `background_image`);
`render_buffer` keeps only the non-null bit of the Imlib image pointer. -/
structure XLunchNative where
  width : Int
  height : Int
  icon_size : Int
  cols : Int
  rows : Int
  cell_width : Int
  cell_height : Int
  padding : Int
  num_entries : Int
  settings_button_hovered : Bool
  logo_button_hovered : Bool
  settings_x : Int
  settings_y : Int
  settings_w : Int
  settings_h : Int
  logo_x : Int
  logo_y : Int
  logo_w : Int
  logo_h : Int
  scrolled_past : Int
  noscroll : Bool
  entries_count : Int
  scrollbar_color : Nat
  scrollindicator_color : Nat
  scroll_debounce_counter : Int
  render_buffer : Bool
  dirty : Int
deriving DecidableEq

/-- The state initialisation performed by `xlunch_native_init`
(`xlunch_native.c`, lines 181-358), restricted to the modelled fields:
padding 20, cell sizes derived from the icon size (line 231-232), grid
dimensions by C integer division (lines 233-234), the two header-button
rectangles (lines 276-285), and the scroll/hover state (lines 272-294).
`render_buffer_created` records whether the off-screen buffer allocation
(`imlib_create_image`, line 306) succeeded.  `num_entries` is not assigned
by the C initialiser (the caller sets it); it starts as `0` here. -/
def xlunch_native_init (width height icon_size : Int)
    (render_buffer_created : Bool) : XLunchNative :=
  let padding : Int := 20
  let cell_width := icon_size + padding * 2
  let cell_height := icon_size + padding * 2 + 20
  { width := width
    height := height
    icon_size := icon_size
    padding := padding
    cell_width := cell_width
    cell_height := cell_height
    cols := (width - padding).tdiv cell_width
    rows := (height - padding).tdiv cell_height
    num_entries := 0
    settings_button_hovered := false
    logo_button_hovered := false
    settings_x := width - 150
    settings_y := 30
    settings_w := 140
    settings_h := 52
    logo_x := 45
    logo_y := 10
    logo_w := 245
    logo_h := 100
    scrolled_past := 0
    noscroll := false
    entries_count := 0
    scrollbar_color := 0x3CFFFFFF
    scrollindicator_color := 0x70FFFFFF
    scroll_debounce_counter := 0
    render_buffer := render_buffer_created
    dirty := 1 }

/-- The `max_scroll` bound computed inside `xlunch_native_set_scroll_level`
(line 884): `(xl->entries_count - 1) / xl->cols - xl->rows + 1`, with C
truncated division. -/
def xlunch_native_max_scroll (xl : XLunchNative) : Int :=
  (xl.entries_count - 1).tdiv xl.cols - xl.rows + 1

/-- The two clamping steps of `xlunch_native_set_scroll_level` (lines
885-890): first clamp above by `max_scroll`, then below by 0. -/
def scroll_clamp (max_scroll new_scroll : Int) : Int :=
  let s1 := if new_scroll > max_scroll then max_scroll else new_scroll
  if s1 < 0 then 0 else s1

/-- `xlunch_native_set_scroll_level` (lines 875-897).  Returns the updated
state together with the C return value (1 if the scroll position actually
changed, 0 otherwise).  The `!xl` null-pointer guard is outside the model. -/
def xlunch_native_set_scroll_level (xl : XLunchNative) (new_scroll : Int) :
    XLunchNative × Int :=
  if xl.noscroll then (xl, 0)
  else
    let old_scroll := xl.scrolled_past
    if new_scroll ≠ xl.scrolled_past then
      let s2 := scroll_clamp (xlunch_native_max_scroll xl) new_scroll
      ({ xl with scrolled_past := s2 }, if s2 ≠ old_scroll then 1 else 0)
    else
      (xl, 0)

/-- Pointer inside the settings-button rectangle: the first test of
`xlunch_native_check_button_hover` (lines 752-753), inclusive on all four
edges. -/
def in_settings_rect (xl : XLunchNative) (mouse_x mouse_y : Int) : Prop :=
  mouse_x ≥ xl.settings_x ∧ mouse_x ≤ xl.settings_x + xl.settings_w ∧
  mouse_y ≥ xl.settings_y ∧ mouse_y ≤ xl.settings_y + xl.settings_h

/-- Pointer inside the logo rectangle: the second test of
`xlunch_native_check_button_hover` (lines 758-759). -/
def in_logo_rect (xl : XLunchNative) (mouse_x mouse_y : Int) : Prop :=
  mouse_x ≥ xl.logo_x ∧ mouse_x ≤ xl.logo_x + xl.logo_w ∧
  mouse_y ≥ xl.logo_y ∧ mouse_y ≤ xl.logo_y + xl.logo_h

instance (xl : XLunchNative) (mx my : Int) :
    Decidable (in_settings_rect xl mx my) := by
  unfold in_settings_rect; infer_instance

instance (xl : XLunchNative) (mx my : Int) :
    Decidable (in_logo_rect xl mx my) := by
  unfold in_logo_rect; infer_instance

/-- `xlunch_native_check_button_hover` (lines 748-764): 1 for the settings
button, 2 for the logo, 0 for none; the settings rectangle is tested first. -/
def xlunch_native_check_button_hover (xl : XLunchNative)
    (mouse_x mouse_y : Int) : Int :=
  if in_settings_rect xl mouse_x mouse_y then 1
  else if in_logo_rect xl mouse_x mouse_y then 2
  else 0

/-- `xlunch_native_handle_hover` (lines 767-789): reset both hover flags,
then set at most one of them from `xlunch_native_check_button_hover`.  The
function triggers no redraw itself. -/
def xlunch_native_handle_hover (xl : XLunchNative) (mouse_x mouse_y : Int) :
    XLunchNative :=
  let xl0 := { xl with settings_button_hovered := false,
                       logo_button_hovered := false }
  let button := xlunch_native_check_button_hover xl0 mouse_x mouse_y
  if button = 1 then { xl0 with settings_button_hovered := true }
  else if button = 2 then { xl0 with logo_button_hovered := true }
  else xl0

/-- `xlunch_native_calculate_entry_position` (lines 935-948): forward grid
layout.  Row/column by C division and modulus, scroll offset subtracted,
header height 140, icon centred inside the cell. -/
def xlunch_native_calculate_entry_position (xl : XLunchNative)
    (entry_index : Int) : Int × Int :=
  let row := entry_index.tdiv xl.cols
  let col := entry_index.tmod xl.cols
  let display_row := row - xl.scrolled_past
  (col * xl.cell_width + (xl.cell_width - xl.icon_size).tdiv 2,
   140 + display_row * xl.cell_height)

/-- One X11 input event, restricted to the information
`xlunch_native_handle_events` reads from the `XEvent` union.  X11 constants:
`Button1 = 1`, `Button4 = 4`, `Button5 = 5` (wheel up/down); the keycodes
tested by the C switch are 9 (Escape), 112 (Page Up), 117 (Page Down),
110 (Home), 115 (End), 111 (Up), 116 (Down). -/
inductive XEvent where
  | keyPress (keycode : Int)
  | buttonPress (button : Int) (x y : Int)
  | expose
  | clientMessage
  | motionNotify (x y : Int)
  | enterNotify
  | leaveNotify
  | otherEvent
deriving DecidableEq

/-- Result of one call to `xlunch_native_handle_events`: the (possibly
updated) state, the C return value (`action`), and the value stored through
the `selected_entry` out-parameter. -/
structure EventResult where
  xl : XLunchNative
  action : Int
  selected_entry : Int
deriving DecidableEq

/-- `xlunch_native_handle_events` (lines 623-745).  `pending` is `none` when
`XPending` reports no event, otherwise the drained event.  The C function
first stores `-1` through `selected_entry` (line 627); return codes are
1 = continue, 0 = quit (Escape, window close, or a grid selection),
2 = redraw, -2 = settings button, -3 = logo button (the `-1` error code is
only for null arguments, outside the model). -/
def xlunch_native_handle_events (xl : XLunchNative) (pending : Option XEvent) :
    EventResult :=
  match pending with
  | none => ⟨xl, 1, -1⟩
  | some ev =>
    match ev with
    | XEvent.keyPress keycode =>
      if keycode = 9 then ⟨xl, 0, -1⟩
      else if keycode = 112 then
        let r := xlunch_native_set_scroll_level xl (xl.scrolled_past - xl.rows)
        ⟨r.1, if r.2 ≠ 0 then 2 else 1, -1⟩
      else if keycode = 117 then
        let r := xlunch_native_set_scroll_level xl (xl.scrolled_past + xl.rows)
        ⟨r.1, if r.2 ≠ 0 then 2 else 1, -1⟩
      else if keycode = 110 then
        let r := xlunch_native_set_scroll_level xl 0
        ⟨r.1, if r.2 ≠ 0 then 2 else 1, -1⟩
      else if keycode = 115 then
        let r := xlunch_native_set_scroll_level xl xl.entries_count
        ⟨r.1, if r.2 ≠ 0 then 2 else 1, -1⟩
      else if keycode = 111 then
        let r := xlunch_native_set_scroll_level xl (xl.scrolled_past - 1)
        ⟨r.1, if r.2 ≠ 0 then 2 else 1, -1⟩
      else if keycode = 116 then
        let r := xlunch_native_set_scroll_level xl (xl.scrolled_past + 1)
        ⟨r.1, if r.2 ≠ 0 then 2 else 1, -1⟩
      else ⟨xl, 1, -1⟩
    | XEvent.buttonPress button x y =>
      if button = 1 then
        if y < 140 then
          let button_clicked := xlunch_native_check_button_hover xl x y
          if button_clicked = 1 then ⟨xl, -2, -1⟩
          else if button_clicked = 2 then ⟨xl, -3, -1⟩
          else ⟨xl, 1, -1⟩
        else
          let grid_y := y - 140
          if x ≥ 0 ∧ grid_y ≥ 0 then
            let col := x.tdiv xl.cell_width
            let display_row := grid_y.tdiv xl.cell_height
            let actual_row := display_row + xl.scrolled_past
            let index := actual_row * xl.cols + col
            if col ≥ 0 ∧ col < xl.cols ∧ display_row ≥ 0 ∧
               index ≥ 0 ∧ index < xl.num_entries then
              let startY : Int := 140
              let maxVisibleRows := (xl.height - startY).tdiv xl.cell_height
              if display_row < maxVisibleRows then ⟨xl, 0, index⟩
              else ⟨xl, 1, -1⟩
            else ⟨xl, 1, -1⟩
          else ⟨xl, 1, -1⟩
      else if button = 4 then
        let r := xlunch_native_set_scroll_level xl (xl.scrolled_past - 1)
        ⟨r.1, if r.2 ≠ 0 then 2 else 1, -1⟩
      else if button = 5 then
        let r := xlunch_native_set_scroll_level xl (xl.scrolled_past + 1)
        ⟨r.1, if r.2 ≠ 0 then 2 else 1, -1⟩
      else ⟨xl, 1, -1⟩
    | XEvent.expose => ⟨xl, 2, -1⟩
    | XEvent.clientMessage => ⟨xl, 0, -1⟩
    | XEvent.motionNotify x y => ⟨xlunch_native_handle_hover xl x y, 1, -1⟩
    | XEvent.enterNotify =>
      ⟨{ xl with settings_button_hovered := false,
                 logo_button_hovered := false }, 1, -1⟩
    | XEvent.leaveNotify =>
      ⟨{ xl with settings_button_hovered := false,
                 logo_button_hovered := false }, 1, -1⟩
    | XEvent.otherEvent => ⟨xl, 1, -1⟩

/-- The surface a drawing primitive writes its pixels to: the visible
window, the off-screen render buffer, or — in the self-blend path of
`xlunch_native_draw_icon` — the freshly loaded icon image itself (an
off-screen temporary, so the pixels reach neither the window nor the
render buffer). -/
inductive DrawTarget where
  | window
  | buffer
  | iconImage
deriving DecidableEq

/-- Surface receiving the pixels of `xlunch_native_draw_text` (lines
395-405): `XftDrawStringUtf8` on `xl->xft_draw`, which `xlunch_native_init`
created on `xl->window` (line 255) — always the visible window, whether or
not a render buffer exists. -/
def xlunch_native_draw_text_target (_xl : XLunchNative) : DrawTarget :=
  DrawTarget.window

/-- Surface receiving the pixels of `xlunch_native_draw_rect` (lines
408-416): `XFillRectangle`/`XDrawRectangle` on `xl->window` in both
branches. -/
def xlunch_native_draw_rect_target (_xl : XLunchNative) : DrawTarget :=
  DrawTarget.window

/-- Surface receiving the pixels of `xlunch_native_draw_rounded_rect`
(lines 847-872): `XFillRectangle`/`XDrawPoint` on `xl->window` throughout. -/
def xlunch_native_draw_rounded_rect_target (_xl : XLunchNative) : DrawTarget :=
  DrawTarget.window

/-- Surface receiving the pixels of `xlunch_native_draw_icon` (lines
497-619).  `icon_loaded` records whether `imlib_load_image` succeeded.
With a loaded icon and a render buffer present, lines 524-526 (and
533-536 for the small-size fallback) set the Imlib2 context image to
`icon` immediately before `imlib_blend_image_onto_image(icon, ...)`;
since that call blends its first argument onto the *current context
image*, the destination is the icon itself — the render buffer is never
written.  With a loaded icon and no render buffer, the context drawable
is `xl->window` (line 510) and `imlib_render_image_on_drawable_at_size`
paints the icon on the window (lines 529/539).  The load-failure fallback
draws its placeholder tile with `XFillRectangle`/`XFillArc`/`XDrawLine`
on `xl->window` regardless of the render buffer (lines 586-617). -/
def xlunch_native_draw_icon_target (xl : XLunchNative) (icon_loaded : Bool) :
    DrawTarget :=
  if icon_loaded then
    if xl.render_buffer then DrawTarget.iconImage else DrawTarget.window
  else
    DrawTarget.window

/-- Whether the `imlib_free_image()` at line 543 of
`xlunch_native_draw_icon` releases the render buffer: on the
loaded-icon/buffer-present path, lines 527/537 set the context image back
to `xl->render_buffer` after the blend, so the free at line 543 destroys
the render buffer (on the no-buffer path the context image is still the
icon, which is what gets freed; the load-failure path frees nothing). -/
def xlunch_native_draw_icon_frees_render_buffer (xl : XLunchNative)
    (icon_loaded : Bool) : Bool :=
  icon_loaded && xl.render_buffer

/-- Per-channel darkening from the backdrop capture loop in
`xlunch_native_init` (lines 331-333): `r = (r * (255 - 160)) / 255`. -/
def darken_channel (c : Nat) : Nat :=
  c * (255 - 160) / 255

/-- The per-pixel transform of the backdrop loop (lines 324-336): extract
the three 8-bit channels, darken each, store as solid RGB under an opaque
alpha byte (`0xFF000000 | (r << 16) | (g << 8) | b`). -/
def darken_pixel (p : Nat) : Nat :=
  let r := (p >>> 16) &&& 0xFF
  let g := (p >>> 8) &&& 0xFF
  let b := p &&& 0xFF
  let r2 := darken_channel r
  let g2 := darken_channel g
  let b2 := darken_channel b
  0xFF000000 ||| (r2 <<< 16) ||| (g2 <<< 8) ||| b2

/-- The loop `for (int i = 0; i < width * height; i++)` applies the
transform to every pixel of the captured buffer. -/
def darken_buffer (buf : List Nat) : List Nat :=
  buf.map darken_pixel

/-- Alpha channel of a 32-bit ARGB word. -/
def alpha_of (p : Nat) : Nat := (p >>> 24) &&& 0xFF

/-- Red channel of a 32-bit ARGB word (`(p >> 16) & 0xFF`, line 326). -/
def red_of (p : Nat) : Nat := (p >>> 16) &&& 0xFF

/-- Green channel of a 32-bit ARGB word (`(p >> 8) & 0xFF`, line 327). -/
def green_of (p : Nat) : Nat := (p >>> 8) &&& 0xFF

/-- Blue channel of a 32-bit ARGB word (`p & 0xFF`, line 328). -/
def blue_of (p : Nat) : Nat := p &&& 0xFF

/-- The maximum-scroll bound exactly as the specification words it: floor
division, with the whole bound clamped to 0 if negative.  To be compared
with `xlunch_native_max_scroll`, which the code computes with C truncated
division. -/
def spec_max_scroll (xl : XLunchNative) : Int :=
  max 0 ((xl.entries_count - 1).fdiv xl.cols - xl.rows + 1)

/-- A concrete state from the specification scenario: window 800×600, icon
size 64, render buffer allocated, and 50 entries supplied by the host
(which assigns both `entries_count` and `num_entries`). -/
def xl50 : XLunchNative :=
  { xlunch_native_init 800 600 64 true with
      entries_count := 50, num_entries := 50 }

/-- A small window (250×100, icon size 64): the derived grid has
`cols = 2` and `rows = 0`, and the entry count is still 0. -/
def xl_small : XLunchNative :=
  xlunch_native_init 250 100 64 true

/-- Branch lemma: scrolling disabled is a no-op reporting 0. -/
lemma set_scroll_level_of_noscroll (xl : XLunchNative) (ns : Int)
    (hns : xl.noscroll = true) :
    xlunch_native_set_scroll_level xl ns = (xl, 0) := by
  unfold xlunch_native_set_scroll_level
  rw [if_pos hns]

/-- Branch lemma: requesting the current offset is a no-op reporting 0. -/
lemma set_scroll_level_of_eq (xl : XLunchNative) (ns : Int)
    (hns : xl.noscroll = false) (h : ns = xl.scrolled_past) :
    xlunch_native_set_scroll_level xl ns = (xl, 0) := by
  unfold xlunch_native_set_scroll_level
  rw [hns]
  simp [h]

/-- Branch lemma: a genuine request adopts the clamped value and reports
whether it differs from the previous offset. -/
lemma set_scroll_level_of_ne (xl : XLunchNative) (ns : Int)
    (hns : xl.noscroll = false) (h : ns ≠ xl.scrolled_past) :
    xlunch_native_set_scroll_level xl ns =
      ({ xl with scrolled_past :=
            scroll_clamp (xlunch_native_max_scroll xl) ns },
       if scroll_clamp (xlunch_native_max_scroll xl) ns ≠ xl.scrolled_past
       then 1 else 0) := by
  unfold xlunch_native_set_scroll_level
  rw [hns]
  simp [h]

/-- The clamped value lies in `[0, max 0 max_scroll]`. -/
lemma scroll_clamp_mem (m ns : Int) :
    0 ≤ scroll_clamp m ns ∧ scroll_clamp m ns ≤ max 0 m := by
  unfold scroll_clamp
  split_ifs <;> simp_all <;> omega

/-- Updating only `scrolled_past` leaves the scroll bound unchanged. -/
lemma max_scroll_update (xl : XLunchNative) (c : Int) :
    xlunch_native_max_scroll { xl with scrolled_past := c } =
      xlunch_native_max_scroll xl := rfl

/-- C5: with window 800×600, icon size 64 and padding 20, initialisation
derives `cell_width = 104`, `cell_height = 124`, `cols = 7`, `rows = 4`;
with 50 entries the maximum scroll is 4, and `setScroll 100` from offset 0
clamps to 4 and reports a change. -/
theorem C5_layout_scroll_scenario :
    xl50.padding = 20 ∧ xl50.cell_width = 104 ∧ xl50.cell_height = 124 ∧
    xl50.cols = 7 ∧ xl50.rows = 4 ∧
    xlunch_native_max_scroll xl50 = 4 ∧ xl50.scrolled_past = 0 ∧
    (xlunch_native_set_scroll_level xl50 100).1.scrolled_past = 4 ∧
    (xlunch_native_set_scroll_level xl50 100).2 = 1 := by
  decide

/-- C1, counterexample: the claim asserts that the action returned when no
event is pending is distinct from the action returned when an event is
drained and mapped to no-op.  In the code both are the return value 1: a
drained pointer-motion event yields the same action as an empty queue. -/
theorem C1_counterexample :
    (xlunch_native_handle_events xl50 none).action = 1 ∧
    (xlunch_native_handle_events xl50 (some (XEvent.motionNotify 400 300))).action = 1 ∧
    (xlunch_native_handle_events xl50 (some (XEvent.motionNotify 400 300))).action =
      (xlunch_native_handle_events xl50 none).action := by
  decide

/-- C1, amended: the dispatcher distinguishes three outcome classes, not
four — terminate (0, with −2/−3 for the header buttons), redraw (2), and a
single shared code 1 covering both "event consumed with no effect" and "no
event was pending". -/
theorem C1_dispatcher_action_codes (xl : XLunchNative) (x y : Int) :
    (xlunch_native_handle_events xl none).action = 1 ∧
    (xlunch_native_handle_events xl (some (XEvent.motionNotify x y))).action = 1 ∧
    (xlunch_native_handle_events xl (some XEvent.enterNotify)).action = 1 ∧
    (xlunch_native_handle_events xl (some XEvent.otherEvent)).action = 1 ∧
    (xlunch_native_handle_events xl (some XEvent.expose)).action = 2 ∧
    (xlunch_native_handle_events xl (some XEvent.clientMessage)).action = 0 ∧
    (xlunch_native_handle_events xl (some (XEvent.keyPress 9))).action = 0 := by
  refine ⟨rfl, rfl, rfl, rfl, rfl, rfl, ?_⟩
  simp [xlunch_native_handle_events]

/-- C2, counterexample: the claim asserts every drawing operation targets
the render buffer when it is present; but `xlunch_native_draw_rect` draws on
the visible window even when the render buffer exists. -/
theorem C2_counterexample :
    xl50.render_buffer = true ∧
    xlunch_native_draw_rect_target xl50 = DrawTarget.window ∧
    xlunch_native_draw_rect_target xl50 ≠ DrawTarget.buffer := by
  decide

/-- C2, amended: no drawing operation ever writes the render buffer, even
when it is present.  Text, rectangles, rounded rectangles and the
icon-placeholder fallback always draw directly onto the visible window;
icon drawing with a successfully loaded image paints the window when no
render buffer exists, but when a render buffer is present it blends the
icon onto the icon image itself (reaching neither the window nor the
buffer) and then frees the render buffer. -/
theorem C2_draw_targets (xl : XLunchNative) (icon_loaded : Bool) :
    xlunch_native_draw_text_target xl = DrawTarget.window ∧
    xlunch_native_draw_rect_target xl = DrawTarget.window ∧
    xlunch_native_draw_rounded_rect_target xl = DrawTarget.window ∧
    xlunch_native_draw_icon_target xl icon_loaded =
      (if icon_loaded && xl.render_buffer then DrawTarget.iconImage
       else DrawTarget.window) ∧
    xlunch_native_draw_icon_target xl icon_loaded ≠ DrawTarget.buffer ∧
    (xlunch_native_draw_icon_frees_render_buffer xl icon_loaded = true ↔
      icon_loaded = true ∧ xl.render_buffer = true) := by
  refine ⟨rfl, rfl, rfl, ?_, ?_, ?_⟩
  · cases icon_loaded <;> cases hrb : xl.render_buffer <;>
      simp [xlunch_native_draw_icon_target, hrb]
  · cases icon_loaded <;> cases hrb : xl.render_buffer <;>
      simp [xlunch_native_draw_icon_target, hrb]
  · cases icon_loaded <;> cases hrb : xl.render_buffer <;>
      simp [xlunch_native_draw_icon_frees_render_buffer, hrb]

/-- C7: `setScroll` is a no-op reporting no change when the request equals
the current offset or scrolling is disabled, and in every case the reported
value is 1 exactly when the stored offset differs after the call. -/
theorem C7_set_scroll_change_report (xl : XLunchNative) (requested : Int) :
    ((requested = xl.scrolled_past ∨ xl.noscroll = true) →
      (xlunch_native_set_scroll_level xl requested).1 = xl ∧
      (xlunch_native_set_scroll_level xl requested).2 = 0) ∧
    ((xlunch_native_set_scroll_level xl requested).2 =
      if (xlunch_native_set_scroll_level xl requested).1.scrolled_past ≠
          xl.scrolled_past then 1 else 0) := by
  by_cases hns : xl.noscroll
  · rw [set_scroll_level_of_noscroll xl requested hns]
    simp [hns]
  · rw [Bool.not_eq_true] at hns
    by_cases heq : requested = xl.scrolled_past
    · rw [set_scroll_level_of_eq xl requested hns heq]
      simp
    · rw [set_scroll_level_of_ne xl requested hns heq]
      constructor
      · rintro (h | h)
        · exact absurd h heq
        · rw [hns] at h; exact absurd h (by simp)
      · split_ifs <;> simp_all

/-- Witness for `C7_set_scroll_change_report` at the scenario state and a
request equal to the current offset. -/
theorem C7_set_scroll_change_report_witness :
    (xlunch_native_set_scroll_level xl50 0).1 = xl50 ∧
    (xlunch_native_set_scroll_level xl50 0).2 = 0 :=
  (C7_set_scroll_change_report xl50 0).1 (Or.inl (by decide))

/-- C6: `setScroll` is idempotent on its target: a second call with the
same requested value always reports no change, even when the first call
clamped the request. -/
theorem C6_set_scroll_idempotent (xl : XLunchNative) (requested : Int) :
    (xlunch_native_set_scroll_level
      (xlunch_native_set_scroll_level xl requested).1 requested).2 = 0 := by
  by_cases hns : xl.noscroll
  · rw [set_scroll_level_of_noscroll xl requested hns,
        set_scroll_level_of_noscroll xl requested hns]
  · rw [Bool.not_eq_true] at hns
    by_cases heq : requested = xl.scrolled_past
    · rw [set_scroll_level_of_eq xl requested hns heq,
          set_scroll_level_of_eq xl requested hns heq]
    · rw [set_scroll_level_of_ne xl requested hns heq]
      set c := scroll_clamp (xlunch_native_max_scroll xl) requested with hc
      show (xlunch_native_set_scroll_level
        { xl with scrolled_past := c } requested).2 = 0
      by_cases heq2 : requested = c
      · rw [set_scroll_level_of_eq { xl with scrolled_past := c } requested
          hns heq2]
      · rw [set_scroll_level_of_ne { xl with scrolled_past := c } requested
          hns heq2]
        show (if scroll_clamp
            (xlunch_native_max_scroll { xl with scrolled_past := c })
            requested ≠ c then (1 : Int) else 0) = 0
        rw [max_scroll_update, ← hc]
        simp

/-- C4, counterexample: in the state derived from a 250×100 window
(`cols = 2`, `rows = 0`, no entries yet), the claim's floor-division bound
is 0, the starting offset 0 is within it, scrolling is enabled and
`cols ≥ 1`, yet requesting 5 leaves the stored offset at 1 — above the
claimed bound.  (The code computes the bound with C truncated division, for
which `(0 - 1) / 2 = 0`, not `-1`.) -/
theorem C4_counterexample :
    xl_small.noscroll = false ∧ 1 ≤ xl_small.cols ∧
    0 ≤ xl_small.scrolled_past ∧
    xl_small.scrolled_past ≤ spec_max_scroll xl_small ∧
    spec_max_scroll xl_small = 0 ∧
    (xlunch_native_set_scroll_level xl_small 5).1.scrolled_past = 1 ∧
    ¬((xlunch_native_set_scroll_level xl_small 5).1.scrolled_past ≤
        spec_max_scroll xl_small) := by
  decide

/-- C4, amended: with the bound computed as the code computes it — C
truncated division, then clamped below by 0 — the invariant holds: from any
in-range starting offset, any requested value (arbitrarily far out of
range) leaves the stored offset in `[0, max 0 maxScroll]` rather than
erroring. -/
theorem C4_scroll_offset_clamped (xl : XLunchNative) (requested : Int)
    (_hcols : 1 ≤ xl.cols) (hns : xl.noscroll = false)
    (h0 : 0 ≤ xl.scrolled_past)
    (h1 : xl.scrolled_past ≤ max 0 (xlunch_native_max_scroll xl)) :
    0 ≤ (xlunch_native_set_scroll_level xl requested).1.scrolled_past ∧
    (xlunch_native_set_scroll_level xl requested).1.scrolled_past ≤
      max 0 (xlunch_native_max_scroll xl) := by
  by_cases heq : requested = xl.scrolled_past
  · rw [set_scroll_level_of_eq xl requested hns heq]
    exact ⟨h0, h1⟩
  · rw [set_scroll_level_of_ne xl requested hns heq]
    exact scroll_clamp_mem (xlunch_native_max_scroll xl) requested

/-- Witness for `C4_scroll_offset_clamped`: the scenario state with 50
entries, requesting 100. -/
theorem C4_scroll_offset_clamped_witness :
    0 ≤ (xlunch_native_set_scroll_level xl50 100).1.scrolled_past ∧
    (xlunch_native_set_scroll_level xl50 100).1.scrolled_past ≤
      max 0 (xlunch_native_max_scroll xl50) :=
  C4_scroll_offset_clamped xl50 100 (by decide) (by decide) (by decide)
    (by decide)

/-- Packing a value below `2 ^ n` with a left-shifted value is addition. -/
lemma shiftLeft_or_eq_add (x b n : Nat) (hb : b < 2 ^ n) :
    (x <<< n) ||| b = 2 ^ n * x + b := by
  apply Nat.eq_of_testBit_eq
  intro j
  rw [Nat.testBit_or, Nat.testBit_mul_pow_two_add x hb j, Nat.testBit_shiftLeft]
  by_cases h : j < n
  · have h2 : ¬ j ≥ n := by omega
    simp [h, h2]
  · have h2 : j ≥ n := by omega
    have hbj : b.testBit j = false :=
      Nat.testBit_lt_two_pow
        (Nat.lt_of_lt_of_le hb (Nat.pow_le_pow_right (by norm_num) h2))
    simp [h, h2, hbj]

/-- The darkened value of an 8-bit channel is at most 95. -/
lemma darken_channel_le (c : Nat) (hc : c ≤ 255) : darken_channel c ≤ 95 := by
  unfold darken_channel
  omega

/-- `darken_pixel` in additive form: opaque alpha byte on top of the three
darkened channels. -/
lemma darken_pixel_eq (p : Nat) :
    darken_pixel p =
      2 ^ 24 * 255 +
        (2 ^ 16 * darken_channel (red_of p) +
          (2 ^ 8 * darken_channel (green_of p) +
            darken_channel (blue_of p))) := by
  have hr : (p >>> 16) &&& 0xFF ≤ 255 := Nat.and_le_right
  have hg : (p >>> 8) &&& 0xFF ≤ 255 := Nat.and_le_right
  have hb : p &&& 0xFF ≤ 255 := Nat.and_le_right
  have hr2 := darken_channel_le _ hr
  have hg2 := darken_channel_le _ hg
  have hb2 := darken_channel_le _ hb
  unfold darken_pixel red_of green_of blue_of
  rw [Nat.or_assoc, Nat.or_assoc]
  rw [shiftLeft_or_eq_add (darken_channel ((p >>> 8) &&& 0xFF))
      (darken_channel (p &&& 0xFF)) 8 (by omega)]
  rw [shiftLeft_or_eq_add (darken_channel ((p >>> 16) &&& 0xFF)) _ 16
      (by omega)]
  have h24 : (0xFF000000 : Nat) = 255 <<< 24 := by decide
  rw [h24, shiftLeft_or_eq_add 255 _ 24 (by omega)]

/-- Bounds on the three darkened channels of a pixel. -/
lemma darken_channel_bounds (p : Nat) :
    darken_channel (red_of p) ≤ 95 ∧ darken_channel (green_of p) ≤ 95 ∧
    darken_channel (blue_of p) ≤ 95 :=
  ⟨darken_channel_le _ Nat.and_le_right, darken_channel_le _ Nat.and_le_right,
   darken_channel_le _ Nat.and_le_right⟩

/-- The darkened pixel is fully opaque. -/
lemma alpha_of_darken_pixel (p : Nat) : alpha_of (darken_pixel p) = 0xFF := by
  obtain ⟨hr2, hg2, hb2⟩ := darken_channel_bounds p
  show (darken_pixel p >>> 24) &&& 0xFF = 0xFF
  rw [darken_pixel_eq, Nat.shiftRight_eq_div_pow,
    (by norm_num : (0xFF : Nat) = 2 ^ 8 - 1), Nat.and_pow_two_sub_one_eq_mod]
  omega

/-- The red channel of the darkened pixel is the darkened red channel. -/
lemma red_of_darken_pixel (p : Nat) :
    red_of (darken_pixel p) = darken_channel (red_of p) := by
  obtain ⟨hr2, hg2, hb2⟩ := darken_channel_bounds p
  show (darken_pixel p >>> 16) &&& 0xFF = darken_channel (red_of p)
  rw [darken_pixel_eq, Nat.shiftRight_eq_div_pow,
    (by norm_num : (0xFF : Nat) = 2 ^ 8 - 1), Nat.and_pow_two_sub_one_eq_mod]
  omega

/-- The green channel of the darkened pixel is the darkened green channel. -/
lemma green_of_darken_pixel (p : Nat) :
    green_of (darken_pixel p) = darken_channel (green_of p) := by
  obtain ⟨hr2, hg2, hb2⟩ := darken_channel_bounds p
  show (darken_pixel p >>> 8) &&& 0xFF = darken_channel (green_of p)
  rw [darken_pixel_eq, Nat.shiftRight_eq_div_pow,
    (by norm_num : (0xFF : Nat) = 2 ^ 8 - 1), Nat.and_pow_two_sub_one_eq_mod]
  omega

/-- The blue channel of the darkened pixel is the darkened blue channel. -/
lemma blue_of_darken_pixel (p : Nat) :
    blue_of (darken_pixel p) = darken_channel (blue_of p) := by
  obtain ⟨hr2, hg2, hb2⟩ := darken_channel_bounds p
  show darken_pixel p &&& 0xFF = darken_channel (blue_of p)
  rw [darken_pixel_eq,
    (by norm_num : (0xFF : Nat) = 2 ^ 8 - 1), Nat.and_pow_two_sub_one_eq_mod]
  omega

/-- C8: backdrop darkening is the pure per-channel map
`c ↦ c * (255 - 160) / 255 = c * 95 / 255` (so 0, 128, 255 map to 0, 47,
95), applied to each channel of every pixel of the captured buffer, with
the resulting alpha byte forced to fully opaque. -/
theorem C8_backdrop_darkening (p c : Nat) (buf : List Nat) (i : Nat) :
    darken_channel c = c * 95 / 255 ∧
    darken_channel 0 = 0 ∧ darken_channel 128 = 47 ∧
    darken_channel 255 = 95 ∧
    alpha_of (darken_pixel p) = 0xFF ∧
    red_of (darken_pixel p) = darken_channel (red_of p) ∧
    green_of (darken_pixel p) = darken_channel (green_of p) ∧
    blue_of (darken_pixel p) = darken_channel (blue_of p) ∧
    (darken_buffer buf).length = buf.length ∧
    (darken_buffer buf)[i]? = buf[i]?.map darken_pixel :=
  ⟨by norm_num [darken_channel], by decide, by decide, by decide,
   alpha_of_darken_pixel p, red_of_darken_pixel p, green_of_darken_pixel p,
   blue_of_darken_pixel p, by simp [darken_buffer], by simp [darken_buffer]⟩

/-- Branch lemma: a point in the settings rectangle resolves to 1. -/
lemma check_button_hover_settings (xl : XLunchNative) (mx my : Int)
    (hs : in_settings_rect xl mx my) :
    xlunch_native_check_button_hover xl mx my = 1 := by
  unfold xlunch_native_check_button_hover
  rw [if_pos hs]

/-- Branch lemma: a point in the logo rectangle but not the settings
rectangle resolves to 2. -/
lemma check_button_hover_logo (xl : XLunchNative) (mx my : Int)
    (hs : ¬ in_settings_rect xl mx my) (hl : in_logo_rect xl mx my) :
    xlunch_native_check_button_hover xl mx my = 2 := by
  unfold xlunch_native_check_button_hover
  rw [if_neg hs, if_pos hl]

/-- Branch lemma: a point outside both rectangles resolves to 0. -/
lemma check_button_hover_none (xl : XLunchNative) (mx my : Int)
    (hs : ¬ in_settings_rect xl mx my) (hl : ¬ in_logo_rect xl mx my) :
    xlunch_native_check_button_hover xl mx my = 0 := by
  unfold xlunch_native_check_button_hover
  rw [if_neg hs, if_neg hl]

/-- Hover processing with the pointer in the settings rectangle. -/
lemma handle_hover_of_settings (xl : XLunchNative) (mx my : Int)
    (hs : in_settings_rect xl mx my) :
    xlunch_native_handle_hover xl mx my =
      { xl with settings_button_hovered := true,
                logo_button_hovered := false } := by
  simp only [xlunch_native_handle_hover]
  have hs0 : in_settings_rect
      { xl with settings_button_hovered := false,
                logo_button_hovered := false } mx my := hs
  rw [check_button_hover_settings _ mx my hs0]
  simp

/-- Hover processing with the pointer in the logo rectangle only. -/
lemma handle_hover_of_logo (xl : XLunchNative) (mx my : Int)
    (hs : ¬ in_settings_rect xl mx my) (hl : in_logo_rect xl mx my) :
    xlunch_native_handle_hover xl mx my =
      { xl with settings_button_hovered := false,
                logo_button_hovered := true } := by
  simp only [xlunch_native_handle_hover]
  have hs0 : ¬ in_settings_rect
      { xl with settings_button_hovered := false,
                logo_button_hovered := false } mx my := hs
  have hl0 : in_logo_rect
      { xl with settings_button_hovered := false,
                logo_button_hovered := false } mx my := hl
  rw [check_button_hover_logo _ mx my hs0 hl0]
  simp

/-- Hover processing with the pointer outside both rectangles. -/
lemma handle_hover_of_none (xl : XLunchNative) (mx my : Int)
    (hs : ¬ in_settings_rect xl mx my) (hl : ¬ in_logo_rect xl mx my) :
    xlunch_native_handle_hover xl mx my =
      { xl with settings_button_hovered := false,
                logo_button_hovered := false } := by
  simp only [xlunch_native_handle_hover]
  have hs0 : ¬ in_settings_rect
      { xl with settings_button_hovered := false,
                logo_button_hovered := false } mx my := hs
  have hl0 : ¬ in_logo_rect
      { xl with settings_button_hovered := false,
                logo_button_hovered := false } mx my := hl
  rw [check_button_hover_none _ mx my hs0 hl0]
  simp

/-- C9: button resolution is mutually exclusive — the resolver returns a
single code in {0, 1, 2}, never both buttons at once; a point outside both
fixed rectangles resolves to "none"; and after hover processing at most one
of the two hover booleans is set (none, outside both rectangles). -/
theorem C9_button_resolution_exclusive (xl : XLunchNative) (mx my : Int) :
    (xlunch_native_check_button_hover xl mx my = 0 ∨
     xlunch_native_check_button_hover xl mx my = 1 ∨
     xlunch_native_check_button_hover xl mx my = 2) ∧
    ¬(xlunch_native_check_button_hover xl mx my = 1 ∧
      xlunch_native_check_button_hover xl mx my = 2) ∧
    (¬ in_settings_rect xl mx my ∧ ¬ in_logo_rect xl mx my →
      xlunch_native_check_button_hover xl mx my = 0) ∧
    ¬((xlunch_native_handle_hover xl mx my).settings_button_hovered = true ∧
      (xlunch_native_handle_hover xl mx my).logo_button_hovered = true) ∧
    (¬ in_settings_rect xl mx my ∧ ¬ in_logo_rect xl mx my →
      (xlunch_native_handle_hover xl mx my).settings_button_hovered = false ∧
      (xlunch_native_handle_hover xl mx my).logo_button_hovered = false) := by
  by_cases hs : in_settings_rect xl mx my
  · rw [check_button_hover_settings xl mx my hs,
        handle_hover_of_settings xl mx my hs]
    refine ⟨Or.inr (Or.inl rfl), by decide, ?_, by simp, ?_⟩
    · intro h; exact absurd hs h.1
    · intro h; exact absurd hs h.1
  · by_cases hl : in_logo_rect xl mx my
    · rw [check_button_hover_logo xl mx my hs hl,
          handle_hover_of_logo xl mx my hs hl]
      refine ⟨Or.inr (Or.inr rfl), by decide, ?_, by simp, ?_⟩
      · intro h; exact absurd hl h.2
      · intro h; exact absurd hl h.2
    · rw [check_button_hover_none xl mx my hs hl,
          handle_hover_of_none xl mx my hs hl]
      exact ⟨Or.inl rfl, by decide, fun _ => rfl, by simp,
        fun _ => ⟨rfl, rfl⟩⟩

/-- Witness for `C9_button_resolution_exclusive`: the point (−5, −5) lies
outside both header-button rectangles of the scenario state and resolves to
"none", with both hover flags cleared. -/
theorem C9_button_resolution_exclusive_witness :
    xlunch_native_check_button_hover xl50 (-5) (-5) = 0 ∧
    (xlunch_native_handle_hover xl50 (-5) (-5)).settings_button_hovered
      = false ∧
    (xlunch_native_handle_hover xl50 (-5) (-5)).logo_button_hovered
      = false := by
  have h := C9_button_resolution_exclusive xl50 (-5) (-5)
  exact ⟨h.2.2.1 ⟨by decide, by decide⟩,
         (h.2.2.2.2 ⟨by decide, by decide⟩).1,
         (h.2.2.2.2 ⟨by decide, by decide⟩).2⟩

/-- C10: the dispatcher first stores −1 in the selection out-parameter and
leaves it at −1 on every return path except a left click resolving to a
valid grid entry, where the action is the terminate code 0 and the index is
within `[0, num_entries)`. -/
theorem C10_selection_output (xl : XLunchNative) (pending : Option XEvent) :
    (xlunch_native_handle_events xl pending).selected_entry = -1 ∨
    ((xlunch_native_handle_events xl pending).action = 0 ∧
     0 ≤ (xlunch_native_handle_events xl pending).selected_entry ∧
     (xlunch_native_handle_events xl pending).selected_entry <
       xl.num_entries) := by
  cases pending with
  | none => left; rfl
  | some ev =>
    cases ev with
    | keyPress keycode =>
      simp only [xlunch_native_handle_events]
      split_ifs <;> simp
    | buttonPress button x y =>
      simp only [xlunch_native_handle_events]
      split_ifs <;> simp_all
    | expose => left; rfl
    | clientMessage => left; rfl
    | motionNotify x y => left; rfl
    | enterNotify => left; rfl
    | leaveNotify => left; rfl
    | otherEvent => left; rfl

/-- C3: hit-testing inverts the forward layout.  For an index in
`[0, num_entries)` whose display row (`index / cols - scrolled_past`) is
non-negative and strictly below the visible-row bound
`(height - 140) / cell_height`, a left click at the position produced by
`xlunch_native_calculate_entry_position` terminates with exactly that index
selected; an index scrolled out of view (display row negative or at or
beyond the bound) never resolves to an entry. -/
theorem C3_hit_test_round_trip (xl : XLunchNative) (index : Int)
    (hcols : 1 ≤ xl.cols) (hcw : 1 ≤ xl.cell_width)
    (hch : 1 ≤ xl.cell_height) (hicon0 : 0 ≤ xl.icon_size)
    (hicon : xl.icon_size ≤ xl.cell_width)
    (hi0 : 0 ≤ index) (hin : index < xl.num_entries) :
    (0 ≤ index.tdiv xl.cols - xl.scrolled_past →
     index.tdiv xl.cols - xl.scrolled_past <
       (xl.height - 140).tdiv xl.cell_height →
     xlunch_native_handle_events xl (some (XEvent.buttonPress 1
        (xlunch_native_calculate_entry_position xl index).1
        (xlunch_native_calculate_entry_position xl index).2)) =
       ⟨xl, 0, index⟩) ∧
    (index.tdiv xl.cols - xl.scrolled_past < 0 ∨
       (xl.height - 140).tdiv xl.cell_height ≤
         index.tdiv xl.cols - xl.scrolled_past →
     (xlunch_native_handle_events xl (some (XEvent.buttonPress 1
        (xlunch_native_calculate_entry_position xl index).1
        (xlunch_native_calculate_entry_position xl index).2))).selected_entry
       = -1) := by
  have hcol0 : 0 ≤ index.tmod xl.cols := Int.tmod_nonneg xl.cols hi0
  have hcollt : index.tmod xl.cols < xl.cols :=
    Int.tmod_lt_of_pos index (by omega)
  have hrow0 : 0 ≤ index.tdiv xl.cols := Int.tdiv_nonneg hi0 (by omega)
  have hdecomp : index.tdiv xl.cols * xl.cols + index.tmod xl.cols = index :=
    Int.tdiv_add_tmod' index xl.cols
  have hoff_ed : (xl.cell_width - xl.icon_size).tdiv 2 =
      (xl.cell_width - xl.icon_size) / 2 :=
    Int.tdiv_eq_ediv (by omega) (by omega)
  have hoff0 : 0 ≤ (xl.cell_width - xl.icon_size).tdiv 2 := by
    rw [hoff_ed]; omega
  have hofflt : (xl.cell_width - xl.icon_size).tdiv 2 < xl.cell_width := by
    rw [hoff_ed]; omega
  have hcolcw0 : 0 ≤ index.tmod xl.cols * xl.cell_width :=
    mul_nonneg hcol0 (by omega)
  have hxdiv : (index.tmod xl.cols * xl.cell_width +
      (xl.cell_width - xl.icon_size).tdiv 2).tdiv xl.cell_width =
      index.tmod xl.cols := by
    rw [Int.tdiv_eq_ediv (by omega) (by omega),
      add_comm (index.tmod xl.cols * xl.cell_width)
        ((xl.cell_width - xl.icon_size).tdiv 2),
      Int.add_mul_ediv_right _ _ (by omega : xl.cell_width ≠ 0),
      Int.ediv_eq_zero_of_lt hoff0 hofflt]
    omega
  constructor
  · intro hdr0 hdrlt
    have hprod0 : 0 ≤ (index.tdiv xl.cols - xl.scrolled_past) *
        xl.cell_height := mul_nonneg hdr0 (by omega)
    have hydiv : ((index.tdiv xl.cols - xl.scrolled_past) *
        xl.cell_height).tdiv xl.cell_height =
        index.tdiv xl.cols - xl.scrolled_past := by
      rw [Int.tdiv_eq_ediv hprod0 (by omega)]
      exact Int.mul_ediv_cancel _ (by omega)
    simp only [xlunch_native_handle_events,
      xlunch_native_calculate_entry_position]
    rw [show (140 + (index.tdiv xl.cols - xl.scrolled_past) *
        xl.cell_height - 140 : Int) =
        (index.tdiv xl.cols - xl.scrolled_past) * xl.cell_height from
      by ring]
    rw [hxdiv, hydiv]
    rw [show (index.tdiv xl.cols - xl.scrolled_past + xl.scrolled_past :
        Int) = index.tdiv xl.cols from by ring]
    rw [hdecomp]
    split_ifs <;> first | rfl | omega
  · intro hout
    by_cases hdr0 : 0 ≤ index.tdiv xl.cols - xl.scrolled_past
    · have hdrlt : (xl.height - 140).tdiv xl.cell_height ≤
          index.tdiv xl.cols - xl.scrolled_past := by
        rcases hout with h | h
        · omega
        · exact h
      have hprod0 : 0 ≤ (index.tdiv xl.cols - xl.scrolled_past) *
          xl.cell_height := mul_nonneg hdr0 (by omega)
      have hydiv : ((index.tdiv xl.cols - xl.scrolled_past) *
          xl.cell_height).tdiv xl.cell_height =
          index.tdiv xl.cols - xl.scrolled_past := by
        rw [Int.tdiv_eq_ediv hprod0 (by omega)]
        exact Int.mul_ediv_cancel _ (by omega)
      simp only [xlunch_native_handle_events,
        xlunch_native_calculate_entry_position]
      rw [show (140 + (index.tdiv xl.cols - xl.scrolled_past) *
          xl.cell_height - 140 : Int) =
          (index.tdiv xl.cols - xl.scrolled_past) * xl.cell_height from
        by ring]
      rw [hxdiv, hydiv]
      split_ifs <;> first | rfl | omega
    · have hprodneg : (index.tdiv xl.cols - xl.scrolled_past) *
          xl.cell_height < 0 :=
        mul_neg_of_neg_of_pos (by omega) (by omega)
      simp only [xlunch_native_handle_events,
        xlunch_native_calculate_entry_position]
      split_ifs <;> first | rfl | omega

/-- Witness for `C3_hit_test_round_trip`: in the 800×600 scenario with 50
entries and scroll 0, entry 1 lays out at (124, 140) and a left click there
terminates with selection 1. -/
theorem C3_hit_test_round_trip_witness :
    xlunch_native_handle_events xl50 (some (XEvent.buttonPress 1
      (xlunch_native_calculate_entry_position xl50 1).1
      (xlunch_native_calculate_entry_position xl50 1).2)) =
      ⟨xl50, 0, 1⟩ :=
  (C3_hit_test_round_trip xl50 1 (by decide) (by decide) (by decide)
    (by decide) (by decide) (by decide) (by decide)).1 (by decide)
    (by decide)

end XLunch
